import Mathlib

/-!
Shallow embedding of the TM38 slab-thickness calculators.

The numeric model is the real numbers: JavaScript floating-point arithmetic is
idealised as exact real arithmetic, `Math.log` as `Real.log`, `Math.sqrt` as
`Real.sqrt`, `Math.pow x y` as real rpow, and `Math.log10` as `Real.logb 10`.
String-valued enumerations of the source (`loadCase`, `jointType`, neighbour
`type`, influence-curve names, baseplate shapes) are modelled by inductive
types whose constructors correspond one-to-one to the string values used at
the call sites.  Division by zero follows Lean's `x / 0 = 0` convention; every
place where the source could divide by zero is either guarded in the source or
multiplied by a zero factor, so the modelled results agree.
-/

set_option maxHeartbeats 1000000

noncomputable section

/-- Source constant POISSON from the calculator (`POISSON_RATIO = 0.15`). -/
def POISSON : ℝ := 0.15

/-- Source constant `LOAD_FACTOR = 1.5`. -/
def LOAD_FACTOR : ℝ := 1.5

/-- The load-position cases of the back-to-back calculator; constructors
correspond to the source strings `'interior'`, `'edgeLong'`, `'edgeShort'`,
`'corner'`. -/
inductive LoadCase
  | interior
  | edgeLong
  | edgeShort
  | corner
deriving DecidableEq

/-- `loadCase.includes('edge')` of the source: true exactly on the two edge
cases. -/
def LoadCase.isEdge : LoadCase → Bool
  | LoadCase.edgeLong => true
  | LoadCase.edgeShort => true
  | _ => false

/-- Neighbour position tags appearing in the `distances` lists; constructors
correspond to the source strings `'interior'`, `'edgeLong'`, `'edgeShort'`. -/
inductive NeighborType
  | interior
  | edgeLong
  | edgeShort
deriving DecidableEq

/-- One entry of a `distances` list: `{ dist, type }`. -/
structure Neighbor where
  dist : ℝ
  type : NeighborType

/-- Joint type; `noLoadTransfer` corresponds to the source string
`'No Load Transfer'`, `withLoadTransfer` to any other joint-type string. -/
inductive JointType
  | noLoadTransfer
  | withLoadTransfer
deriving DecidableEq

/-- Influence-curve identifiers, corresponding to the source strings
`'interior-radial'`, `'interior-tangential'`, `'edge-radial'`. -/
inductive StressCurve
  | interiorRadial
  | interiorTangential
  | edgeRadial
deriving DecidableEq

/-- Baseplate shape for `calculateRForPointLoad`; constructors correspond to
the source strings `'circular'` and `'rectangular'`. -/
inductive Shape
  | circular
  | rectangular
deriving DecidableEq

/-- `calculateModifiedK(k_subgrade, subbase_thickness)` from the back-to-back
calculator file: log-regression sub-base enhancement of the subgrade
modulus. -/
def calculateModifiedK (k_subgrade subbase_thickness : ℝ) : ℝ :=
  if subbase_thickness ≤ 0 then k_subgrade
  else if k_subgrade ≤ 0 then 0
  else subbase_thickness * (0.0612 * Real.log k_subgrade - 0.1029) +
    (0.8752 * k_subgrade - 1.453)

/-- `calculateEc(fc)`: concrete elastic modulus, 0 for non-positive `fc`. -/
def calculateEc (fc : ℝ) : ℝ :=
  if 0 < fc then 3320 * Real.sqrt fc + 6900 else 0

/-- `getK1(days)`: age factor, 1.1 from 90 days. -/
def getK1 (days : ℝ) : ℝ :=
  if 90 ≤ days then 1.1 else 1.0

/-- `getK2(repetitionsStr)` of the back-to-back file, modelled on the parsed
numeric repetition count.  The source first parses the string; `NaN` (e.g. the
option `'< 8000'`) and values below 8000 give 1.0.  The source's
`repetitionsStr === 'Unlimited'` branch is dead code (parseFloat of
`'Unlimited'` is `NaN`, already caught), so it does not appear here.  The
final `return 1.0` of the source is unreachable for numeric input and is kept
as the last `else`. -/
def getK2 (repetitions : ℝ) : ℝ :=
  if repetitions < 8000 then 1.0
  else if 8000 ≤ repetitions ∧ repetitions ≤ 400000 then
    max 0.75 (min 1.0 (1.5 * (0.73 - 0.0846 * (Real.logb 10 repetitions - 3))))
  else if 400000 < repetitions then 0.77
  else 1.0

/-- `calculateAllowableStress(fc, days, repetitions, postTensionStress)`:
allowable flexural stress, 0 when `fc ≤ 0` (the source guard `!fc || fc <= 0`
for numeric input). -/
def calculateAllowableStress (fc days repetitions postTensionStress : ℝ) : ℝ :=
  if fc ≤ 0 then 0
  else 0.456 * getK1 days * getK2 repetitions * fc ^ (0.66 : ℝ) + postTensionStress

/-- `calculateL(Ec, h, k)`: radius of relative stiffness, 0 when any input is
non-positive (the source guards `!Ec || Ec <= 0` etc. for numeric input). -/
def calculateL (Ec h k : ℝ) : ℝ :=
  if Ec ≤ 0 ∨ h ≤ 0 ∨ k ≤ 0 then 0
  else (Ec * h ^ (3 : ℕ) * 1000 / (12 * (1 - POISSON ^ (2 : ℕ)) * k)) ^ (0.25 : ℝ)

/-- `calculateRForPointLoad(shape, dim1, dim2)`: equivalent contact radius of
a baseplate. -/
def calculateRForPointLoad (shape : Shape) (dim1 dim2 : ℝ) : ℝ :=
  if shape = Shape.circular then dim1 / 2
  else Real.sqrt (dim1 * dim2 / Real.pi)

/-- `calculateB(r, h)`: Westergaard equivalent contact radius
(`b = r` when `r ≥ 1.72 h`, else `sqrt(1.6 r² + h²) − 0.675 h`). -/
def calculateB (r h : ℝ) : ℝ :=
  if r = 0 ∨ h = 0 then 0
  else if 1.72 * h ≤ r then r
  else Real.sqrt (1.6 * r * r + h * h) - 0.675 * h

/-- `calculateSingleInteriorStress(P_tonnes, h, l, b)`. -/
def calculateSingleInteriorStress (P_tonnes h l b : ℝ) : ℝ :=
  if h ≤ 0 ∨ l ≤ 0 ∨ b ≤ 0 then 0
  else
    let P_N := P_tonnes * 9810
    let stress := 0.275 * (1 + POISSON) * P_N / (h * h) * Real.log (l / b)
    if 0 < stress then stress else 0

/-- `calculateSingleEdgeStress(P_tonnes, h, l, b, jointType)`. -/
def calculateSingleEdgeStress (P_tonnes h l b : ℝ) (jointType : JointType) : ℝ :=
  if h ≤ 0 ∨ l ≤ 0 ∨ b ≤ 0 then 0
  else
    let P_N := P_tonnes * 9810
    let stress0 := 0.529 * (1 + 0.54 * POISSON) * P_N / (h * h) * Real.log (l / b)
    let stress := if jointType ≠ JointType.noLoadTransfer then stress0 * 0.85 else stress0
    if 0 < stress then stress else 0

/-- `calculateSingleCornerStress(P_tonnes, h, l, r, jointType)`. -/
def calculateSingleCornerStress (P_tonnes h l r : ℝ) (jointType : JointType) : ℝ :=
  if h ≤ 0 ∨ l ≤ 0 ∨ r ≤ 0 then 0
  else
    let P_N := P_tonnes * 9810
    let stress0 := 3 * P_N / (h * h) * (1 - (r * Real.sqrt 2 / l) ^ (0.6 : ℝ))
    let stress := if jointType ≠ JointType.noLoadTransfer then stress0 * 0.7 else stress0
    if 0 < stress then stress else 0

/-- The `for` loop of `interpolate`: try each consecutive pair of table points
in order and return the linear interpolation of the first bracketing pair. -/
def segLoop (x : ℝ) : List (ℝ × ℝ) → Option ℝ
  | p1 :: p2 :: rest =>
      if p1.1 ≤ x ∧ x ≤ p2.1 then
        some (p1.2 + (p2.2 - p1.2) * (x - p1.1) / (p2.1 - p1.1))
      else segLoop x (p2 :: rest)
  | _ => none

/-- `points[points.length - 1]` for a list given as head plus tail. -/
def lastPoint (p : ℝ × ℝ) : List (ℝ × ℝ) → ℝ × ℝ
  | [] => p
  | q :: rest => lastPoint q rest

/-- `interpolate(points, x)` from the source: clamp below the first breakpoint
and above the last, otherwise piecewise-linear interpolation; the source's
final `return points[points.length-1][1]` (reached only for unsorted tables)
is the `Option.getD` default.  The source indexes `points[0]` of a non-empty
array; the `[]` case returns 0 and is never used. -/
def interpolate (points : List (ℝ × ℝ)) (x : ℝ) : ℝ :=
  match points with
  | [] => 0
  | p0 :: rest =>
      let pl := lastPoint p0 rest
      if x ≤ p0.1 then p0.2
      else if pl.1 ≤ x then pl.2
      else (segLoop x (p0 :: rest)).getD pl.2

/-- `interiorRadialPoints` influence table. -/
def interiorRadialPoints : List (ℝ × ℝ) :=
  [(0, 100), (0.5, 60), (1, 25), (1.5, 5), (2, -5), (3, -8), (4, -5), (5, -2), (6, 0)]

/-- `interiorTangentialPoints` influence table. -/
def interiorTangentialPoints : List (ℝ × ℝ) :=
  [(0, 100), (0.5, 80), (1, 55), (1.5, 35), (2, 20), (3, 8), (4, 2), (5, 0), (6, 0)]

/-- `edgeRadialPoints` influence table. -/
def edgeRadialPoints : List (ℝ × ℝ) :=
  [(0, 100), (0.5, 50), (1, 20), (1.5, 5), (2, -5), (3, -10), (4, -8), (5, -4), (6, 0)]

/-- `getStressContribution(distOverL, baseStress, type)`. -/
def getStressContribution (distOverL baseStress : ℝ) (curve : StressCurve) : ℝ :=
  let points :=
    match curve with
    | StressCurve.interiorRadial => interiorRadialPoints
    | StressCurve.interiorTangential => interiorTangentialPoints
    | StressCurve.edgeRadial => edgeRadialPoints
  baseStress * interpolate points distOverL / 100

/-- `calculateTotalFactoredStress(P, h, l, jointType, distances, loadCase,
r_contact)`: primary-case stress plus the influence-scaled stresses of the
neighbours, times the load factor.  The neighbour branch on `d.type` mirrors
the source's `d.type === 'interior'` / `d.type.includes('edge')` tests. -/
def calculateTotalFactoredStress (P_tonnes_unfactored h l : ℝ) (jointType : JointType)
    (distances : List Neighbor) (loadCase : LoadCase) (r_contact : ℝ) : ℝ :=
  let r_int := r_contact
  let r_edge := r_contact * Real.sqrt 2
  let baseStress :=
    if loadCase.isEdge then
      calculateSingleEdgeStress P_tonnes_unfactored h l (calculateB r_edge h) jointType
    else if loadCase = LoadCase.corner then
      calculateSingleCornerStress P_tonnes_unfactored h l r_int jointType
    else
      calculateSingleInteriorStress P_tonnes_unfactored h l (calculateB r_int h)
  let total := distances.foldl (fun acc d =>
    if 0 < d.dist then
      acc +
        (match d.type with
         | NeighborType.interior =>
             getStressContribution (d.dist / l)
               (calculateSingleInteriorStress P_tonnes_unfactored h l (calculateB r_int h))
               StressCurve.interiorTangential
         | NeighborType.edgeLong =>
             getStressContribution (d.dist / l)
               (calculateSingleEdgeStress P_tonnes_unfactored h l (calculateB r_edge h) jointType)
               StressCurve.edgeRadial
         | NeighborType.edgeShort =>
             getStressContribution (d.dist / l)
               (calculateSingleEdgeStress P_tonnes_unfactored h l (calculateB r_edge h) jointType)
               StressCurve.edgeRadial)
    else acc) baseStress
  total * LOAD_FACTOR

/-- The result record of `findMinThickness`.  The source returns
`{thickness: h, stress}` on success, modelled `⟨some h, some stress⟩`, and
`{thickness: '>800', stress: null}` on exhaustion, modelled `⟨none, none⟩`
(`'>800'` parses as `NaN`, i.e. no numeric thickness). -/
structure FindResult where
  thickness : Option ℕ
  stress : Option ℝ

/-- The factored stress tried by the search at integer thickness `h`:
`calculateTotalFactoredStress` with `l = calculateL(Ec, h, k)` recomputed per
trial, as in the body of the source's `while` loop. -/
def trialStress (Ec k P : ℝ) (jointType : JointType) (distances : List Neighbor)
    (loadCase : LoadCase) (r_contact : ℝ) (h : ℕ) : ℝ :=
  calculateTotalFactoredStress P (h : ℝ) (calculateL Ec (h : ℝ) k) jointType
    distances loadCase r_contact

/-- The `while (h <= 800)` loop of `findMinThickness`, with an explicit fuel
argument for structural recursion; `findMinThickness` supplies fuel 701,
exactly the trials h = 100, 101, ..., 800 of the source loop. -/
def findMinThicknessFrom (stressFn : ℕ → ℝ) (allowable : ℝ) : ℕ → ℕ → FindResult
  | 0, _ => ⟨none, none⟩
  | fuel + 1, h =>
      if h ≤ 800 then
        if stressFn h ≤ allowable then ⟨some h, some (stressFn h)⟩
        else findMinThicknessFrom stressFn allowable fuel (h + 1)
      else ⟨none, none⟩

/-- `findMinThickness(loadCase, allowableStress, Ec, k, P, jointType,
distances, r_contact)`: iterative minimum-thickness search starting at
h = 100 mm, stepping by 1 mm up to the 800 mm ceiling. -/
def findMinThickness (loadCase : LoadCase) (allowableStress Ec k P : ℝ)
    (jointType : JointType) (distances : List Neighbor) (r_contact : ℝ) : FindResult :=
  findMinThicknessFrom (trialStress Ec k P jointType distances loadCase r_contact)
    allowableStress 701 100

/-- `enhanceModulusForSubbase(k, thickness)` of the point-load calculator:
capped multiplicative sub-base enhancement; `hasSubbase` is the
`inputs.hasSubbase` flag captured by the source closure. -/
def enhanceModulusForSubbase (hasSubbase : Bool) (k thickness : ℝ) : ℝ :=
  if hasSubbase = false ∨ thickness < 100 then k
  else min (k * (1 + thickness / 300 * 0.5)) (k * 2)

/-- The load-repetition factor `k2` of `calculateModulusOfRupture` in the
point-load calculator: a step table over the repetition count. -/
def pointLoadK2 (repetitions : ℝ) : ℝ :=
  if 400000 ≤ repetitions then 0.77
  else if 300000 ≤ repetitions then 0.78
  else if 200000 ≤ repetitions then 0.81
  else if 100000 ≤ repetitions then 0.84
  else if 50000 ≤ repetitions then 0.89
  else if 30000 ≤ repetitions then 0.90
  else if 10000 ≤ repetitions then 0.96
  else 1.0

/-- `calculateModulusOfRupture(fc, age, repetitions)` of the point-load
calculator, with its inline `k2` chain factored out as `pointLoadK2`. -/
def calculateModulusOfRupture (fc age repetitions : ℝ) : ℝ :=
  let k1 := if 90 ≤ age then 1.1 else 1.0
  0.456 * k1 * pointLoadK2 repetitions * fc ^ (0.66 : ℝ)

/-- The load positions of the point-load calculator, corresponding to the
source strings `'interior'`, `'edge'`, `'corner'`. -/
inductive PLCase
  | interior
  | edge
  | corner
deriving DecidableEq

/-- The `Governed by:` expression of the point-load Design Summary:
`corner ≥ edge && corner ≥ interior ? Corner : edge ≥ interior ? Edge :
Interior`. -/
def governedBy (interiorT edgeT cornerT : ℝ) : PLCase :=
  if edgeT ≤ cornerT ∧ interiorT ≤ cornerT then PLCase.corner
  else if interiorT ≤ edgeT then PLCase.edge
  else PLCase.interior

/-- The `Recommended Minimum Thickness` expression of the Design Summary:
`Math.max(interior.thickness, edge.thickness, corner.thickness)`. -/
def recommendedMinThickness (interiorT edgeT cornerT : ℝ) : ℝ :=
  max interiorT (max edgeT cornerT)

/-- The thickness of a named point-load case, used to state that the governing
case attains the numerical maximum. -/
def plCaseThickness (interiorT edgeT cornerT : ℝ) : PLCase → ℝ
  | PLCase.interior => interiorT
  | PLCase.edge => edgeT
  | PLCase.corner => cornerT

/-- `criticalLoadCase` of the back-to-back component: scan the per-case
results in insertion order (interior, edgeLong, edgeShort, corner) keeping the
first entry whose numeric thickness strictly exceeds the running maximum
(initially 0).  An exhausted case (`thickness: '>800'`, which `parseFloat`
turns into `NaN` and the source skips) is modelled as `none`. -/
def criticalLoadCase (outputs : List (LoadCase × Option ℝ)) : Option LoadCase :=
  (outputs.foldl (fun acc entry =>
      match entry.2 with
      | some t => if acc.1 < t then (t, some entry.1) else acc
      | none => acc)
    ((0 : ℝ), (none : Option LoadCase))).2

/-! ### Helper lemmas -/

theorem singleInteriorStress_nonneg (P h l b : ℝ) :
    0 ≤ calculateSingleInteriorStress P h l b := by
  unfold calculateSingleInteriorStress
  dsimp only
  split_ifs <;> linarith

theorem singleEdgeStress_nonneg (P h l b : ℝ) (jt : JointType) :
    0 ≤ calculateSingleEdgeStress P h l b jt := by
  unfold calculateSingleEdgeStress
  dsimp only
  split_ifs <;> linarith

theorem singleCornerStress_nonneg (P h l r : ℝ) (jt : JointType) :
    0 ≤ calculateSingleCornerStress P h l r jt := by
  unfold calculateSingleCornerStress
  dsimp only
  split_ifs <;> linarith

theorem singleInteriorStress_of_l_nonpos (P h l b : ℝ) (hl : l ≤ 0) :
    calculateSingleInteriorStress P h l b = 0 := by
  unfold calculateSingleInteriorStress
  rw [if_pos (Or.inr (Or.inl hl))]

theorem singleEdgeStress_of_l_nonpos (P h l b : ℝ) (jt : JointType) (hl : l ≤ 0) :
    calculateSingleEdgeStress P h l b jt = 0 := by
  unfold calculateSingleEdgeStress
  rw [if_pos (Or.inr (Or.inl hl))]

theorem singleCornerStress_of_l_nonpos (P h l r : ℝ) (jt : JointType) (hl : l ≤ 0) :
    calculateSingleCornerStress P h l r jt = 0 := by
  unfold calculateSingleCornerStress
  rw [if_pos (Or.inr (Or.inl hl))]

/-- If the radius of relative stiffness is non-positive, every per-trial total
factored stress vanishes: the primary stress and each neighbour's baseline
stress are zero by the defensive guards, and each influence contribution is a
zero baseline times an influence fraction. -/
theorem totalFactoredStress_of_l_nonpos (P h l : ℝ) (jt : JointType)
    (ds : List Neighbor) (lc : LoadCase) (r : ℝ) (hl : l ≤ 0) :
    calculateTotalFactoredStress P h l jt ds lc r = 0 := by
  unfold calculateTotalFactoredStress
  have hbase :
      (if lc.isEdge then
          calculateSingleEdgeStress P h l (calculateB (r * Real.sqrt 2) h) jt
        else if lc = LoadCase.corner then
          calculateSingleCornerStress P h l r jt
        else
          calculateSingleInteriorStress P h l (calculateB r h)) = 0 := by
    split_ifs
    · exact singleEdgeStress_of_l_nonpos _ _ _ _ _ hl
    · exact singleCornerStress_of_l_nonpos _ _ _ _ _ hl
    · exact singleInteriorStress_of_l_nonpos _ _ _ _ hl
  simp only [hbase]
  have hfold : ∀ (dl : List Neighbor),
      dl.foldl (fun acc d =>
        if 0 < d.dist then
          acc +
            (match d.type with
             | NeighborType.interior =>
                 getStressContribution (d.dist / l)
                   (calculateSingleInteriorStress P h l (calculateB r h))
                   StressCurve.interiorTangential
             | NeighborType.edgeLong =>
                 getStressContribution (d.dist / l)
                   (calculateSingleEdgeStress P h l (calculateB (r * Real.sqrt 2) h) jt)
                   StressCurve.edgeRadial
             | NeighborType.edgeShort =>
                 getStressContribution (d.dist / l)
                   (calculateSingleEdgeStress P h l (calculateB (r * Real.sqrt 2) h) jt)
                   StressCurve.edgeRadial)
        else acc) 0 = 0 := by
    intro dl
    induction dl with
    | nil => rfl
    | cons d rest ih =>
        simp only [List.foldl_cons]
        have hstep :
            (if 0 < d.dist then
              (0 : ℝ) +
                (match d.type with
                 | NeighborType.interior =>
                     getStressContribution (d.dist / l)
                       (calculateSingleInteriorStress P h l (calculateB r h))
                       StressCurve.interiorTangential
                 | NeighborType.edgeLong =>
                     getStressContribution (d.dist / l)
                       (calculateSingleEdgeStress P h l (calculateB (r * Real.sqrt 2) h) jt)
                       StressCurve.edgeRadial
                 | NeighborType.edgeShort =>
                     getStressContribution (d.dist / l)
                       (calculateSingleEdgeStress P h l (calculateB (r * Real.sqrt 2) h) jt)
                       StressCurve.edgeRadial)
            else 0) = 0 := by
          split_ifs with hd
          · cases htype : d.type <;>
              simp [getStressContribution, singleInteriorStress_of_l_nonpos P h l _ hl,
                singleEdgeStress_of_l_nonpos P h l _ jt hl]
          · rfl
        rw [hstep, ih]
  rw [hfold, zero_mul]

/-- If `Ec ≤ 0` then `calculateL` returns 0. -/
theorem calculateL_of_Ec_nonpos (Ec h k : ℝ) (hEc : Ec ≤ 0) :
    calculateL Ec h k = 0 := by
  unfold calculateL
  rw [if_pos (Or.inl hEc)]

/-- If `fc ≤ 0` then `calculateEc` returns 0. -/
theorem calculateEc_of_nonpos (fc : ℝ) (hfc : fc ≤ 0) : calculateEc fc = 0 := by
  unfold calculateEc
  rw [if_neg (not_lt.mpr hfc)]

/-- The search loop reports the exhaustion marker whenever no trial in range
is adequate (for any fuel). -/
theorem findFrom_exhausted (stressFn : ℕ → ℝ) (allowable : ℝ) :
    ∀ fuel start : ℕ, (∀ h : ℕ, start ≤ h → h ≤ 800 → allowable < stressFn h) →
      findMinThicknessFrom stressFn allowable fuel start = ⟨none, none⟩ := by
  intro fuel
  induction fuel with
  | zero => intro start _; rfl
  | succ n ih =>
      intro start H
      rw [findMinThicknessFrom]
      by_cases h8 : start ≤ 800
      · rw [if_pos h8, if_neg (not_le.mpr (H start le_rfl h8))]
        exact ih (start + 1) (fun h hh hle => H h (by omega) hle)
      · rw [if_neg h8]

/-- The search loop returns the first adequate trial thickness together with
its stress, provided the fuel reaches that trial. -/
theorem findFrom_first_adequate (stressFn : ℕ → ℝ) (allowable : ℝ) :
    ∀ fuel start h0 : ℕ, start ≤ h0 → h0 ≤ 800 → h0 < start + fuel →
      stressFn h0 ≤ allowable →
      (∀ h : ℕ, start ≤ h → h < h0 → allowable < stressFn h) →
      findMinThicknessFrom stressFn allowable fuel start =
        ⟨some h0, some (stressFn h0)⟩ := by
  intro fuel
  induction fuel with
  | zero => intro start h0 hsh _ hfuel _ _; omega
  | succ n ih =>
      intro start h0 hsh h800 hfuel hado hmin
      rw [findMinThicknessFrom]
      rw [if_pos (by omega : start ≤ 800)]
      rcases eq_or_lt_of_le hsh with heq | hlt
      · subst heq
        rw [if_pos hado]
      · rw [if_neg (not_le.mpr (hmin start le_rfl hlt))]
        exact ih (start + 1) h0 (by omega) h800 (by omega) hado
          (fun h hh hlth => hmin h (by omega) hlth)

/-- `trialStress` vanishes whenever `Ec ≤ 0`, since then the radius of
relative stiffness is 0 and every stress guard fires. -/
theorem trialStress_zero_of_Ec_nonpos (Ec k P : ℝ) (jt : JointType)
    (ds : List Neighbor) (lc : LoadCase) (r : ℝ) (h : ℕ) (hEc : Ec ≤ 0) :
    trialStress Ec k P jt ds lc r h = 0 := by
  unfold trialStress
  rw [calculateL_of_Ec_nonpos Ec (h : ℝ) k hEc]
  exact totalFactoredStress_of_l_nonpos P (h : ℝ) 0 jt ds lc r le_rfl

/-- With no neighbours the total factored stress is the (clamped,
non-negative) primary stress times the positive load factor, hence
non-negative. -/
theorem totalFactoredStress_nil_nonneg (P h l : ℝ) (jt : JointType)
    (lc : LoadCase) (r : ℝ) :
    0 ≤ calculateTotalFactoredStress P h l jt [] lc r := by
  unfold calculateTotalFactoredStress
  dsimp only [List.foldl]
  have hb : 0 ≤
      (if lc.isEdge then
          calculateSingleEdgeStress P h l (calculateB (r * Real.sqrt 2) h) jt
        else if lc = LoadCase.corner then
          calculateSingleCornerStress P h l r jt
        else
          calculateSingleInteriorStress P h l (calculateB r h)) := by
    split_ifs
    · exact singleEdgeStress_nonneg P h l _ jt
    · exact singleCornerStress_nonneg P h l r jt
    · exact singleInteriorStress_nonneg P h l _
  have hf : (0 : ℝ) ≤ LOAD_FACTOR := by
    unfold LOAD_FACTOR
    norm_num
  exact mul_nonneg hb hf

/-- The interior stress is clamped to 0 whenever `ℓ ≤ b`, because the
Westergaard logarithm is then non-positive. -/
theorem singleInteriorStress_zero_of_l_le_b (P h l b : ℝ) (hP : 0 ≤ P)
    (hl : l ≤ b) : calculateSingleInteriorStress P h l b = 0 := by
  unfold calculateSingleInteriorStress
  dsimp only
  split_ifs with hg hpos
  · rfl
  · exfalso
    push_neg at hg
    obtain ⟨hh, hl0, hb0⟩ := hg
    have hlog : Real.log (l / b) ≤ 0 :=
      Real.log_nonpos (by positivity) ((div_le_one hb0).mpr hl)
    have hco : 0 ≤ 0.275 * (1 + POISSON) * (P * 9810) / (h * h) := by
      unfold POISSON
      positivity
    nlinarith [mul_nonpos_of_nonneg_of_nonpos hco hlog]
  · rfl

/-- With no neighbours, an interior-case total factored stress is exactly 0
whenever `ℓ ≤ b`. -/
theorem interiorTotal_zero_of_l_le_b (P Ec k r : ℝ) (jt : JointType) (h : ℝ)
    (hP : 0 ≤ P) (hlb : calculateL Ec h k ≤ calculateB r h) :
    calculateTotalFactoredStress P h (calculateL Ec h k) jt [] LoadCase.interior r
      = 0 := by
  unfold calculateTotalFactoredStress
  dsimp only [List.foldl]
  rw [if_neg (by decide : ¬(LoadCase.isEdge LoadCase.interior = true)),
    if_neg (by decide : ¬(LoadCase.interior = LoadCase.corner)),
    singleInteriorStress_zero_of_l_le_b P h _ _ hP hlb, zero_mul]

/-- `calculateEc 25 = 23500` (a concrete strength with an exact square
root). -/
theorem calculateEc_25 : calculateEc 25 = 23500 := by
  unfold calculateEc
  rw [if_pos (by norm_num : (0 : ℝ) < 25),
    show (25 : ℝ) = 5 ^ (2 : ℕ) by norm_num,
    Real.sqrt_sq (by norm_num : (0 : ℝ) ≤ 5)]
  norm_num

/-- Fourth-root bound used to compare a radius of relative stiffness with a
large contact radius. -/
theorem rpow_quarter_le_million (x : ℝ) (hx : 0 ≤ x) (hle : x ≤ 10 ^ (24 : ℕ)) :
    x ^ (0.25 : ℝ) ≤ 1000000 := by
  have h1 : x ^ (0.25 : ℝ) ≤ ((10 : ℝ) ^ (24 : ℕ)) ^ (0.25 : ℝ) :=
    Real.rpow_le_rpow hx hle (by norm_num)
  have h2 : (((10 : ℝ) ^ (24 : ℕ)) : ℝ) ^ (0.25 : ℝ) = 1000000 := by
    rw [show ((10 : ℝ) ^ (24 : ℕ)) = ((10 : ℝ) ^ (6 : ℕ)) ^ (4 : ℕ) by norm_num,
      ← Real.rpow_natCast ((10 : ℝ) ^ (6 : ℕ)) 4,
      ← Real.rpow_mul (by positivity)]
    rw [show (((4 : ℕ) : ℝ) * 0.25) = 1 by norm_num, Real.rpow_one]
    norm_num
  calc x ^ (0.25 : ℝ) ≤ ((10 : ℝ) ^ (24 : ℕ)) ^ (0.25 : ℝ) := h1
    _ = 1000000 := h2

/-- For f'c = 25 MPa, k = 50 and any thickness with `h³ ≤ 10⁹`, the radius of
relative stiffness is at most 10⁶ mm. -/
theorem calcL_le_million (h : ℝ) (hh : 0 < h) (hcube : h ^ (3 : ℕ) ≤ 10 ^ (9 : ℕ)) :
    calculateL (calculateEc 25) h 50 ≤ 1000000 := by
  unfold calculateL
  rw [calculateEc_25]
  rw [if_neg (by push_neg; exact ⟨by norm_num, hh, by norm_num⟩)]
  apply rpow_quarter_le_million
  · have h3 : (0 : ℝ) ≤ h ^ (3 : ℕ) := by positivity
    unfold POISSON
    positivity
  · rw [div_le_iff₀ (by unfold POISSON; norm_num)]
    unfold POISSON
    nlinarith [hcube]

/-- A one-megametre contact radius is its own equivalent contact radius for
any reasonable thickness. -/
theorem calcB_million (h : ℝ) (hh : h ≠ 0) (hle : 1.72 * h ≤ 1000000) :
    calculateB 1000000 h = 1000000 := by
  unfold calculateB
  rw [if_neg (by push_neg; exact ⟨by norm_num, hh⟩), if_pos hle]

/-! ### Claim theorems -/

/-- Claim C8: for every contact radius `r > 0` and slab thickness `h > 0`, the
equivalent contact radius equals `r` when `r ≥ 1.72·h`, and
`sqrt(1.6·r² + h²) − 0.675·h` otherwise, with the branch threshold exactly
`1.72·h`. -/
theorem C8_equivalent_contact_radius (r h : ℝ) (hr : 0 < r) (hh : 0 < h) :
    (1.72 * h ≤ r → calculateB r h = r) ∧
    (r < 1.72 * h →
      calculateB r h = Real.sqrt (1.6 * r * r + h * h) - 0.675 * h) := by
  have hguard : ¬(r = 0 ∨ h = 0) := by
    push_neg
    exact ⟨ne_of_gt hr, ne_of_gt hh⟩
  constructor
  · intro hbr
    unfold calculateB
    rw [if_neg hguard, if_pos hbr]
  · intro hbr
    unfold calculateB
    rw [if_neg hguard, if_neg (not_le.mpr hbr)]

theorem C8_witness :
    calculateB 200 100 = 200 ∧
    calculateB 100 100 = Real.sqrt (1.6 * 100 * 100 + 100 * 100) - 0.675 * 100 :=
  ⟨(C8_equivalent_contact_radius 200 100 (by norm_num) (by norm_num)).1 (by norm_num),
   (C8_equivalent_contact_radius 100 100 (by norm_num) (by norm_num)).2 (by norm_num)⟩

/-- Claim C9: when thickness, radius of relative stiffness, or the
contact/equivalent radius is zero or negative, the interior, edge and corner
stress functions return 0 instead of propagating a domain error. -/
theorem C9_degenerate_geometry_guards (P h l b r : ℝ) (jt : JointType) :
    ((h ≤ 0 ∨ l ≤ 0 ∨ b ≤ 0) →
      calculateSingleInteriorStress P h l b = 0 ∧
      calculateSingleEdgeStress P h l b jt = 0) ∧
    ((h ≤ 0 ∨ l ≤ 0 ∨ r ≤ 0) → calculateSingleCornerStress P h l r jt = 0) := by
  constructor
  · intro hg
    constructor
    · unfold calculateSingleInteriorStress
      rw [if_pos hg]
    · unfold calculateSingleEdgeStress
      rw [if_pos hg]
  · intro hg
    unfold calculateSingleCornerStress
    rw [if_pos hg]

theorem C9_witness :
    calculateSingleInteriorStress 1 0 500 50 = 0 ∧
    calculateSingleEdgeStress 1 0 500 50 JointType.noLoadTransfer = 0 ∧
    calculateSingleCornerStress 1 0 500 50 JointType.noLoadTransfer = 0 := by
  have h := C9_degenerate_geometry_guards 1 0 500 50 50 JointType.noLoadTransfer
  exact ⟨(h.1 (Or.inl (by norm_num))).1, (h.1 (Or.inl (by norm_num))).2,
    h.2 (Or.inl (by norm_num))⟩

/-- Claim C10: each single-load stress function returns a non-negative value
for every input; negatively computed stresses are clamped to zero. -/
theorem C10_stress_clamped_nonneg (P h l b r : ℝ) (jt : JointType) :
    0 ≤ calculateSingleInteriorStress P h l b ∧
    0 ≤ calculateSingleEdgeStress P h l b jt ∧
    0 ≤ calculateSingleCornerStress P h l r jt :=
  ⟨singleInteriorStress_nonneg P h l b, singleEdgeStress_nonneg P h l b jt,
    singleCornerStress_nonneg P h l r jt⟩

/-- Claim C6 counterexample: the log-regression sub-base enhancement
`calculateModifiedK` applied at base modulus 1 and sub-base thickness 50 mm
(below the claimed 100 mm minimum) returns −5.7228, which is different from
(and far below) the base modulus, refuting all three claimed bounds for this
cited enhancement function. -/
theorem C6_counterexample :
    calculateModifiedK 1 50 = -5.7228 ∧ calculateModifiedK 1 50 < 1 := by
  have hval : calculateModifiedK 1 50 = -5.7228 := by
    unfold calculateModifiedK
    rw [if_neg (by norm_num), if_neg (by norm_num), Real.log_one]
    norm_num
  exact ⟨hval, by rw [hval]; norm_num⟩

/-- Claim C6 amended: the capped-multiplier variant
`enhanceModulusForSubbase` of the point-load calculator satisfies the claimed
bounds — the result never exceeds twice the base modulus, never falls below
the base modulus, and equals the base modulus whenever the sub-base thickness
is below 100 mm.  The log-regression variant `calculateModifiedK` does not
satisfy them (see the counterexample). -/
theorem C6_amended_capped_enhancement (hasSubbase : Bool) (k thickness : ℝ)
    (hk : 0 < k) :
    k ≤ enhanceModulusForSubbase hasSubbase k thickness ∧
    enhanceModulusForSubbase hasSubbase k thickness ≤ 2 * k ∧
    (thickness < 100 → enhanceModulusForSubbase hasSubbase k thickness = k) := by
  unfold enhanceModulusForSubbase
  split_ifs with hcond
  · exact ⟨le_refl k, by linarith, fun _ => rfl⟩
  · push_neg at hcond
    obtain ⟨hsb, hth⟩ := hcond
    refine ⟨?_, ?_, ?_⟩
    · refine le_min ?_ (by linarith)
      have hnn : 0 ≤ k * (thickness / 300 * 0.5) :=
        mul_nonneg hk.le (by linarith)
      nlinarith [hnn]
    · calc min (k * (1 + thickness / 300 * 0.5)) (k * 2) ≤ k * 2 :=
            min_le_right _ _
        _ = 2 * k := by ring
    · intro h100
      exact absurd h100 (not_lt.mpr hth)

theorem C6_witness :
    (1 : ℝ) ≤ enhanceModulusForSubbase true 1 150 ∧
    enhanceModulusForSubbase true 1 150 ≤ 2 * 1 ∧
    ((150 : ℝ) < 100 → enhanceModulusForSubbase true 1 150 = 1) :=
  C6_amended_capped_enhancement true 1 150 (by norm_num)

/-- Claim C7 counterexample: with computed thicknesses interior = 200,
edgeLong = 150, edgeShort = 150, corner = 200 the back-to-back
`criticalLoadCase` reports `interior`, not `corner`, because its scan keeps
the first case whose thickness strictly exceeds the running maximum; the
claimed corner-first tie-break therefore fails on a tie at the maximum. -/
theorem C7_counterexample :
    criticalLoadCase [(LoadCase.interior, some 200), (LoadCase.edgeLong, some 150),
        (LoadCase.edgeShort, some 150), (LoadCase.corner, some 200)] =
      some LoadCase.interior ∧
    some LoadCase.interior ≠ some LoadCase.corner := by
  constructor
  · unfold criticalLoadCase
    simp only [List.foldl]
    try dsimp only
    rw [if_pos (by norm_num : (0 : ℝ) < 200)]
    try dsimp only
    rw [if_neg (by norm_num : ¬(200 : ℝ) < 150)]
    try dsimp only
    rw [if_neg (by norm_num : ¬(200 : ℝ) < 150)]
    try dsimp only
    rw [if_neg (by norm_num : ¬(200 : ℝ) < 200)]
  · simp

/-- Claim C7 amended: the point-load Design Summary selects the case attaining
the numerical maximum thickness with ties broken corner > edge > interior
(first block of conjuncts), while the back-to-back `criticalLoadCase` keeps
the first case, in the scan order interior, edgeLong, edgeShort, corner, whose
thickness strictly exceeds all earlier ones — so there ties go to the earliest
case, interior first (second block). -/
theorem C7_amended_governing_selection :
    (∀ ti te tc : ℝ,
      plCaseThickness ti te tc (governedBy ti te tc) =
        recommendedMinThickness ti te tc ∧
      (governedBy ti te tc = PLCase.corner ↔
        recommendedMinThickness ti te tc ≤ tc) ∧
      (governedBy ti te tc = PLCase.edge ↔
        tc < recommendedMinThickness ti te tc ∧
          recommendedMinThickness ti te tc ≤ te) ∧
      (governedBy ti te tc = PLCase.interior ↔
        tc < recommendedMinThickness ti te tc ∧
          te < recommendedMinThickness ti te tc)) ∧
    (∀ ti tel tes tc : ℝ, 0 < ti →
      criticalLoadCase [(LoadCase.interior, some ti), (LoadCase.edgeLong, some tel),
          (LoadCase.edgeShort, some tes), (LoadCase.corner, some tc)] =
        some (if max ti (max tel tes) < tc then LoadCase.corner
              else if max ti tel < tes then LoadCase.edgeShort
              else if ti < tel then LoadCase.edgeLong
              else LoadCase.interior)) := by
  constructor
  · intro ti te tc
    unfold governedBy plCaseThickness recommendedMinThickness
    split_ifs with h1 h2
    · have hM : max ti (max te tc) = tc := by
        rw [max_eq_right h1.1, max_eq_right h1.2]
      rw [hM]
      exact ⟨rfl, iff_of_true rfl le_rfl,
        iff_of_false (by simp) (fun hc => lt_irrefl tc hc.1),
        iff_of_false (by simp) (fun hc => lt_irrefl tc hc.1)⟩
    · have htc : tc < te := by
        rcases not_and_or.mp h1 with hte | hti
        · exact not_le.mp hte
        · exact lt_of_lt_of_le (not_le.mp hti) h2
      have hM : max ti (max te tc) = te := by
        rw [max_eq_left htc.le, max_eq_right h2]
      rw [hM]
      exact ⟨rfl, iff_of_false (by simp) (not_le.mpr htc),
        iff_of_true rfl ⟨htc, le_rfl⟩,
        iff_of_false (by simp) (fun hc => lt_irrefl te hc.2)⟩
    · have hti : te < ti := not_le.mp h2
      have htc : tc < ti := by
        rcases not_and_or.mp h1 with hte | hti2
        · exact lt_trans (not_le.mp hte) hti
        · exact not_le.mp hti2
      have hM : max ti (max te tc) = ti :=
        max_eq_left (max_le hti.le htc.le)
      rw [hM]
      exact ⟨rfl, iff_of_false (by simp) (not_le.mpr htc),
        iff_of_false (by simp) (fun hc => absurd hc.2 (not_le.mpr hti)),
        iff_of_true rfl ⟨htc, hti⟩⟩
  · intro ti tel tes tc hi
    unfold criticalLoadCase
    simp only [List.foldl]
    try dsimp only
    rw [if_pos hi]
    try dsimp only
    by_cases h1 : ti < tel
    · rw [if_pos h1]
      try dsimp only
      by_cases h2 : tel < tes
      · rw [if_pos h2]
        try dsimp only
        by_cases h3 : tes < tc
        · rw [if_pos h3]
          try dsimp only
          rw [max_eq_right h2.le, max_eq_right (lt_trans h1 h2).le, if_pos h3]
        · rw [if_neg h3]
          try dsimp only
          rw [max_eq_right h2.le, max_eq_right (lt_trans h1 h2).le, if_neg h3,
            max_eq_right h1.le, if_pos h2]
      · rw [if_neg h2]
        try dsimp only
        by_cases h3 : tel < tc
        · rw [if_pos h3]
          try dsimp only
          rw [max_eq_left (not_lt.mp h2), max_eq_right h1.le, if_pos h3]
        · rw [if_neg h3]
          try dsimp only
          rw [max_eq_left (not_lt.mp h2), max_eq_right h1.le, if_neg h3,
            if_neg h2, if_pos h1]
    · rw [if_neg h1]
      try dsimp only
      by_cases h2 : ti < tes
      · rw [if_pos h2]
        try dsimp only
        by_cases h3 : tes < tc
        · rw [if_pos h3]
          try dsimp only
          have hmax : max tel tes = tes :=
            max_eq_right (le_of_lt (lt_of_le_of_lt (not_lt.mp h1) h2))
          rw [hmax, max_eq_right h2.le, if_pos h3]
        · rw [if_neg h3]
          try dsimp only
          have hmax : max tel tes = tes :=
            max_eq_right (le_of_lt (lt_of_le_of_lt (not_lt.mp h1) h2))
          rw [hmax, max_eq_right h2.le, if_neg h3,
            max_eq_left (not_lt.mp h1), if_pos h2]
      · rw [if_neg h2]
        try dsimp only
        by_cases h3 : ti < tc
        · rw [if_pos h3]
          try dsimp only
          have hmax : max ti (max tel tes) = ti :=
            max_eq_left (max_le (not_lt.mp h1) (not_lt.mp h2))
          rw [hmax, if_pos h3]
        · rw [if_neg h3]
          try dsimp only
          have hmax : max ti (max tel tes) = ti :=
            max_eq_left (max_le (not_lt.mp h1) (not_lt.mp h2))
          rw [hmax, if_neg h3, max_eq_left (not_lt.mp h1), if_neg h2, if_neg h1]

theorem C7_witness :
    (plCaseThickness 150 175 200 (governedBy 150 175 200) =
        recommendedMinThickness 150 175 200 ∧
      (governedBy 150 175 200 = PLCase.corner ↔
        recommendedMinThickness 150 175 200 ≤ 200) ∧
      (governedBy 150 175 200 = PLCase.edge ↔
        (200 : ℝ) < recommendedMinThickness 150 175 200 ∧
          recommendedMinThickness 150 175 200 ≤ 175) ∧
      (governedBy 150 175 200 = PLCase.interior ↔
        (200 : ℝ) < recommendedMinThickness 150 175 200 ∧
          (175 : ℝ) < recommendedMinThickness 150 175 200)) ∧
    criticalLoadCase [(LoadCase.interior, some 150), (LoadCase.edgeLong, some 175),
        (LoadCase.edgeShort, some 175), (LoadCase.corner, some 200)] =
      some (if max 150 (max 175 175) < (200 : ℝ) then LoadCase.corner
            else if max 150 175 < (175 : ℝ) then LoadCase.edgeShort
            else if (150 : ℝ) < 175 then LoadCase.edgeLong
            else LoadCase.interior) :=
  ⟨C7_amended_governing_selection.1 150 175 200,
   C7_amended_governing_selection.2 150 175 175 200 (by norm_num)⟩

/-- Claim C1 counterexample: with an allowable stress of −1 the interior
search exhausts (every trial stress is non-negative, hence above the
allowance), and the function returns the marker `⟨none, none⟩` — thickness
`'>800'` and a null stress — not the last thickness tried (800) together with
the last computed stress, as the claim asserts for the Exhausted case. -/
theorem C1_counterexample :
    findMinThickness LoadCase.interior (-1) (calculateEc 25) 50 (60 / 9.81)
        JointType.noLoadTransfer [] (calculateRForPointLoad Shape.rectangular 125 125) =
      ⟨none, none⟩ ∧
    (⟨none, none⟩ : FindResult) ≠
      ⟨some 800, some (trialStress (calculateEc 25) 50 (60 / 9.81)
        JointType.noLoadTransfer [] LoadCase.interior
        (calculateRForPointLoad Shape.rectangular 125 125) 800)⟩ := by
  constructor
  · unfold findMinThickness
    apply findFrom_exhausted
    intro h hh h8
    have hnn : 0 ≤ trialStress (calculateEc 25) 50 (60 / 9.81)
        JointType.noLoadTransfer [] LoadCase.interior
        (calculateRForPointLoad Shape.rectangular 125 125) h := by
      unfold trialStress
      exact totalFactoredStress_nil_nonneg _ _ _ _ _ _
    linarith
  · simp

/-- Claim C1 amended: the thickness search starting at the 100 mm floor
returns, in the Adequate case, the first trial thickness at which the
factored stress is at most the allowable stress, together with that stress;
in the Exhausted case (no adequate trial up to the 800 mm ceiling) it returns
the explicit inadequate marker `⟨none, none⟩` — the source's
`{thickness: '>800', stress: null}` — rather than the last thickness tried
and the last computed stress. -/
theorem C1_amended_search (lc : LoadCase) (allowable Ec k P : ℝ) (jt : JointType)
    (ds : List Neighbor) (r : ℝ) :
    (∀ h0 : ℕ, 100 ≤ h0 → h0 ≤ 800 →
      trialStress Ec k P jt ds lc r h0 ≤ allowable →
      (∀ h : ℕ, 100 ≤ h → h < h0 → allowable < trialStress Ec k P jt ds lc r h) →
      findMinThickness lc allowable Ec k P jt ds r =
        ⟨some h0, some (trialStress Ec k P jt ds lc r h0)⟩) ∧
    ((∀ h : ℕ, 100 ≤ h → h ≤ 800 → allowable < trialStress Ec k P jt ds lc r h) →
      findMinThickness lc allowable Ec k P jt ds r = ⟨none, none⟩) := by
  constructor
  · intro h0 h100 h800 hado hmin
    unfold findMinThickness
    exact findFrom_first_adequate _ allowable 701 100 h0 h100 h800 (by omega) hado hmin
  · intro H
    unfold findMinThickness
    exact findFrom_exhausted _ allowable 701 100 H

theorem C1_witness :
    findMinThickness LoadCase.interior 0 (calculateEc 0) 50 (60 / 9.81)
        JointType.noLoadTransfer [⟨800, NeighborType.interior⟩]
        (calculateRForPointLoad Shape.rectangular 125 125) =
      ⟨some 100, some (trialStress (calculateEc 0) 50 (60 / 9.81)
        JointType.noLoadTransfer [⟨800, NeighborType.interior⟩] LoadCase.interior
        (calculateRForPointLoad Shape.rectangular 125 125) 100)⟩ := by
  have hz : trialStress (calculateEc 0) 50 (60 / 9.81) JointType.noLoadTransfer
      [⟨800, NeighborType.interior⟩] LoadCase.interior
      (calculateRForPointLoad Shape.rectangular 125 125) 100 = 0 :=
    trialStress_zero_of_Ec_nonpos _ _ _ _ _ _ _ _
      (le_of_eq (calculateEc_of_nonpos 0 le_rfl))
  exact (C1_amended_search LoadCase.interior 0 (calculateEc 0) 50 (60 / 9.81)
      JointType.noLoadTransfer [⟨800, NeighborType.interior⟩]
      (calculateRForPointLoad Shape.rectangular 125 125)).1 100 le_rfl
    (by norm_num) (by rw [hz]) (fun h hh hlt => absurd hh (by omega))

/-- Claim C2 counterexample: with f'c = 0 (the TM38 default rack-load
geometry and a 125×125 baseplate), the allowable stress is indeed 0, but the
interior thickness search does not report an inadequate result: since
Ec = 0 forces ℓ = 0 and every computed stress to 0, the search succeeds
immediately at the 100 mm floor with stress 0 ≤ 0. -/
theorem C2_counterexample :
    calculateAllowableStress 0 28 5000 0 = 0 ∧
    findMinThickness LoadCase.interior (calculateAllowableStress 0 28 5000 0)
        (calculateEc 0) 50 (60 / 9.81) JointType.noLoadTransfer
        [⟨800, NeighborType.interior⟩, ⟨2700, NeighborType.interior⟩,
          ⟨2700, NeighborType.interior⟩, ⟨625, NeighborType.interior⟩]
        (calculateRForPointLoad Shape.rectangular 125 125) = ⟨some 100, some 0⟩ ∧
    FindResult.mk (some 100) (some 0) ≠ ⟨none, none⟩ := by
  have hA : calculateAllowableStress 0 28 5000 0 = 0 := by
    unfold calculateAllowableStress
    rw [if_pos le_rfl]
  have hz : ∀ h : ℕ, trialStress (calculateEc 0) 50 (60 / 9.81)
      JointType.noLoadTransfer
      [⟨800, NeighborType.interior⟩, ⟨2700, NeighborType.interior⟩,
        ⟨2700, NeighborType.interior⟩, ⟨625, NeighborType.interior⟩]
      LoadCase.interior (calculateRForPointLoad Shape.rectangular 125 125) h = 0 :=
    fun h => trialStress_zero_of_Ec_nonpos _ _ _ _ _ _ _ _
      (le_of_eq (calculateEc_of_nonpos 0 le_rfl))
  refine ⟨hA, ?_, by simp⟩
  unfold findMinThickness
  rw [findFrom_first_adequate _ _ 701 100 100 le_rfl (by norm_num) (by omega)
    (by rw [hz 100, hA]) (fun h hh hlt => absurd hh (by omega)), hz 100]

/-- Claim C2 amended: for f'c ≤ 0 the allowable stress is 0, and — because
Ec is then also 0, so the radius of relative stiffness and every computed
stress are 0 — every thickness search (any load case, any neighbour list)
reports an immediately adequate result at the 100 mm floor with stress 0,
rather than the inadequate result the claim asserts. -/
theorem C2_amended_failsafe (fc : ℝ) (hfc : fc ≤ 0)
    (days repetitions postTensionStress k P : ℝ) (jt : JointType)
    (ds : List Neighbor) (lc : LoadCase) (r : ℝ) :
    calculateAllowableStress fc days repetitions postTensionStress = 0 ∧
    findMinThickness lc (calculateAllowableStress fc days repetitions postTensionStress)
      (calculateEc fc) k P jt ds r = ⟨some 100, some 0⟩ := by
  have hA : calculateAllowableStress fc days repetitions postTensionStress = 0 := by
    unfold calculateAllowableStress
    rw [if_pos hfc]
  have hz : ∀ h : ℕ, trialStress (calculateEc fc) k P jt ds lc r h = 0 :=
    fun h => trialStress_zero_of_Ec_nonpos _ _ _ _ _ _ _ _
      (le_of_eq (calculateEc_of_nonpos fc hfc))
  refine ⟨hA, ?_⟩
  unfold findMinThickness
  rw [findFrom_first_adequate _ _ 701 100 100 le_rfl (by norm_num) (by omega)
    (by rw [hz 100, hA]) (fun h hh hlt => absurd hh (by omega)), hz 100]

theorem C2_witness :
    calculateAllowableStress (-3) 90 300000 2.5 = 0 ∧
    findMinThickness LoadCase.corner (calculateAllowableStress (-3) 90 300000 2.5)
      (calculateEc (-3)) 80 10 JointType.withLoadTransfer
      [⟨1200, NeighborType.edgeShort⟩] 68 = ⟨some 100, some 0⟩ :=
  C2_amended_failsafe (-3) (by norm_num) 90 300000 2.5 80 10
    JointType.withLoadTransfer [⟨1200, NeighborType.edgeShort⟩] LoadCase.corner 68

/-- Claim C3 counterexample: with f'c = 25 MPa, k = 50, P = 60/9.81, no
neighbours, and a (valid, positive) contact radius of 10⁶ mm, the interior
factored stress is clamped to 0 at both h = 100 and h = 125 (the Westergaard
logarithm is non-positive because ℓ ≤ b), so the stress is not strictly
decreasing between consecutive trial thicknesses of the search range. -/
theorem C3_counterexample :
    calculateTotalFactoredStress (60 / 9.81) 100 (calculateL (calculateEc 25) 100 50)
        JointType.noLoadTransfer [] LoadCase.interior 1000000 = 0 ∧
    calculateTotalFactoredStress (60 / 9.81) 125 (calculateL (calculateEc 25) 125 50)
        JointType.noLoadTransfer [] LoadCase.interior 1000000 = 0 ∧
    ¬(calculateTotalFactoredStress (60 / 9.81) 125 (calculateL (calculateEc 25) 125 50)
          JointType.noLoadTransfer [] LoadCase.interior 1000000 <
        calculateTotalFactoredStress (60 / 9.81) 100 (calculateL (calculateEc 25) 100 50)
          JointType.noLoadTransfer [] LoadCase.interior 1000000) := by
  have hb100 : calculateB 1000000 100 = 1000000 :=
    calcB_million 100 (by norm_num) (by norm_num)
  have hb125 : calculateB 1000000 125 = 1000000 :=
    calcB_million 125 (by norm_num) (by norm_num)
  have h100 : calculateTotalFactoredStress (60 / 9.81) 100
      (calculateL (calculateEc 25) 100 50) JointType.noLoadTransfer []
      LoadCase.interior 1000000 = 0 :=
    interiorTotal_zero_of_l_le_b _ _ _ _ _ _ (by norm_num)
      (by rw [hb100]; exact calcL_le_million 100 (by norm_num) (by norm_num))
  have h125 : calculateTotalFactoredStress (60 / 9.81) 125
      (calculateL (calculateEc 25) 125 50) JointType.noLoadTransfer []
      LoadCase.interior 1000000 = 0 :=
    interiorTotal_zero_of_l_le_b _ _ _ _ _ _ (by norm_num)
      (by rw [hb125]; exact calcL_le_million 125 (by norm_num) (by norm_num))
  exact ⟨h100, h125, by rw [h100, h125]; exact lt_irrefl 0⟩

/-- Claim C3 amended: the total factored stress is not strictly decreasing in
thickness for all parameter choices.  Whenever the radius of relative
stiffness does not exceed the equivalent contact radius, the interior-case
stress with no neighbours is clamped to exactly 0, so it takes the same value
(0) at every such trial thickness; strict decrease can hold only for
parameters whose stresses stay positive over the search range. -/
theorem C3_amended_clamped_stress (P Ec k r : ℝ) (jt : JointType) (h : ℝ)
    (hP : 0 ≤ P) (hlb : calculateL Ec h k ≤ calculateB r h) :
    calculateTotalFactoredStress P h (calculateL Ec h k) jt [] LoadCase.interior r
      = 0 :=
  interiorTotal_zero_of_l_le_b P Ec k r jt h hP hlb

theorem C3_witness :
    calculateTotalFactoredStress (60 / 9.81) 100 (calculateL (calculateEc 25) 100 50)
      JointType.withLoadTransfer [] LoadCase.interior 1000000 = 0 :=
  C3_amended_clamped_stress (60 / 9.81) (calculateEc 25) 50 1000000
    JointType.withLoadTransfer 100 (by norm_num)
    (by rw [calcB_million 100 (by norm_num) (by norm_num)]
        exact calcL_le_million 100 (by norm_num) (by norm_num))

/-! ### Logarithm bounds for the fatigue factor -/

theorem log_ten_pos : (0 : ℝ) < Real.log 10 := Real.log_pos (by norm_num)

theorem log_two_pos : (0 : ℝ) < Real.log 2 := Real.log_pos (by norm_num)

/-- `1000 < 1024` gives an upper bound on `log 10` in terms of `log 2`. -/
theorem three_log_ten_lt : 3 * Real.log 10 < 10 * Real.log 2 := by
  have h := Real.log_lt_log (by norm_num : (0 : ℝ) < 1000)
    (by norm_num : (1000 : ℝ) < 1024)
  rw [show (1000 : ℝ) = 10 ^ (3 : ℕ) by norm_num,
    show (1024 : ℝ) = 2 ^ (10 : ℕ) by norm_num, Real.log_pow, Real.log_pow] at h
  push_cast at h
  linarith

/-- `3¹⁷ < 2²⁷` gives an upper bound on `log 3` in terms of `log 2`. -/
theorem seventeen_log_three_lt : 17 * Real.log 3 < 27 * Real.log 2 := by
  have h := Real.log_lt_log (by norm_num : (0 : ℝ) < 129140163)
    (by norm_num : (129140163 : ℝ) < 134217728)
  rw [show (129140163 : ℝ) = 3 ^ (17 : ℕ) by norm_num,
    show (134217728 : ℝ) = 2 ^ (27 : ℕ) by norm_num, Real.log_pow, Real.log_pow] at h
  push_cast at h
  linarith

/-- `2⁹³ < 10²⁸` gives a lower bound on `log 10` in terms of `log 2`. -/
theorem ninetythree_log_two_lt : 93 * Real.log 2 < 28 * Real.log 10 := by
  have h := Real.log_lt_log (by norm_num : (0 : ℝ) < 9903520314283042199192993792)
    (by norm_num : (9903520314283042199192993792 : ℝ) < 10000000000000000000000000000)
  rw [show (9903520314283042199192993792 : ℝ) = 2 ^ (93 : ℕ) by norm_num,
    show (10000000000000000000000000000 : ℝ) = 10 ^ (28 : ℕ) by norm_num,
    Real.log_pow, Real.log_pow] at h
  push_cast at h
  linarith

/-- Lower bound on `log₁₀ 400000`; the rational `7057/1269` is exactly the
threshold at which the fatigue formula takes the value `0.77`. -/
theorem logb_400000_ge : (7057 / 1269 : ℝ) ≤ Real.logb 10 400000 := by
  have h4 : Real.log 400000 = 2 * Real.log 2 + 5 * Real.log 10 := by
    rw [show (400000 : ℝ) = 2 ^ (2 : ℕ) * 10 ^ (5 : ℕ) by norm_num,
      Real.log_mul (by positivity) (by positivity), Real.log_pow, Real.log_pow]
    push_cast
    ring
  rw [Real.logb, h4, le_div_iff₀ log_ten_pos]
  linarith [three_log_ten_lt, log_two_pos]

/-- Upper bound on `log₁₀ 300000`. -/
theorem logb_300000_le : Real.logb 10 300000 ≤ (7057 / 1269 : ℝ) := by
  have h3 : Real.log 300000 = Real.log 3 + 5 * Real.log 10 := by
    rw [show (300000 : ℝ) = 3 * 10 ^ (5 : ℕ) by norm_num,
      Real.log_mul (by norm_num) (by positivity), Real.log_pow]
    push_cast
    ring
  rw [Real.logb, h3, div_le_iff₀ log_ten_pos]
  linarith [seventeen_log_three_lt, ninetythree_log_two_lt, log_ten_pos, log_two_pos]

/-- `getK2` is non-increasing on the formula range `[8000, 400000]`. -/
theorem getK2_mono_mid {a b : ℝ} (ha : 8000 ≤ a) (hab : a ≤ b)
    (hb : b ≤ 400000) : getK2 b ≤ getK2 a := by
  unfold getK2
  rw [if_neg (not_lt.mpr (show (8000 : ℝ) ≤ b by linarith)),
    if_pos (show (8000 : ℝ) ≤ b ∧ b ≤ 400000 from ⟨by linarith, hb⟩),
    if_neg (not_lt.mpr (show (8000 : ℝ) ≤ a from ha)),
    if_pos (show (8000 : ℝ) ≤ a ∧ a ≤ 400000 from ⟨ha, by linarith⟩)]
  have hlb : Real.logb 10 a ≤ Real.logb 10 b :=
    Real.logb_le_logb_of_le (by norm_num) (by linarith) hab
  have hfa : 1.5 * (0.73 - 0.0846 * (Real.logb 10 b - 3)) ≤
      1.5 * (0.73 - 0.0846 * (Real.logb 10 a - 3)) := by linarith
  exact max_le_max le_rfl (min_le_min le_rfl hfa)

/-- `getK2` always lies in `[0.75, 1]`. -/
theorem getK2_mem_range (rep : ℝ) : 0.75 ≤ getK2 rep ∧ getK2 rep ≤ 1 := by
  unfold getK2
  split_ifs with h1 h2 h3
  · norm_num
  · constructor
    · exact le_max_left _ _
    · exact max_le (by norm_num) (le_trans (min_le_left _ _) (by norm_num))
  · norm_num
  · norm_num

/-- `pointLoadK2` is non-increasing everywhere. -/
theorem pointLoadK2_mono {a b : ℝ} (hab : a ≤ b) :
    pointLoadK2 b ≤ pointLoadK2 a := by
  unfold pointLoadK2
  split_ifs <;> linarith

/-- `pointLoadK2` always lies in `[0.75, 1]`. -/
theorem pointLoadK2_mem_range (rep : ℝ) :
    0.75 ≤ pointLoadK2 rep ∧ pointLoadK2 rep ≤ 1 := by
  unfold pointLoadK2
  split_ifs <;> norm_num

/-- `getK2` is at most `0.77` on the final bucket `rep ≥ 400000`. -/
theorem getK2_tail_le (rep : ℝ) (hrep : 400000 ≤ rep) : getK2 rep ≤ 0.77 := by
  unfold getK2
  rcases eq_or_lt_of_le hrep with heq | hlt
  · rw [← heq]
    rw [if_neg (by norm_num), if_pos (by norm_num : (8000 : ℝ) ≤ 400000 ∧
      (400000 : ℝ) ≤ 400000)]
    have hv : 1.5 * (0.73 - 0.0846 * (Real.logb 10 400000 - 3)) ≤ 0.77 := by
      linarith [logb_400000_ge]
    exact max_le (by norm_num) (le_trans (min_le_right _ _) hv)
  · rw [if_neg (not_lt.mpr (by linarith)),
      if_neg (fun hc => absurd hc.2 (not_le.mpr hlt)), if_pos hlt]

/-- `getK2 300000` is at least `0.77`. -/
theorem getK2_300000_ge : (0.77 : ℝ) ≤ getK2 300000 := by
  unfold getK2
  rw [if_neg (by norm_num), if_pos (by norm_num : (8000 : ℝ) ≤ 300000 ∧
    (300000 : ℝ) ≤ 400000)]
  have hv : (0.77 : ℝ) ≤ 1.5 * (0.73 - 0.0846 * (Real.logb 10 300000 - 3)) := by
    linarith [logb_300000_le]
  exact le_trans (le_min (by norm_num) hv) (le_max_right _ _)

/-- Interpolation over a nine-point table with strictly increasing
breakpoints: clamp to the first value at or below the first breakpoint, clamp
to the last value at or beyond the last breakpoint, and linearly interpolate
between the bracketing points otherwise. -/
theorem interpolate_nine (x0 y0 x1 y1 x2 y2 x3 y3 x4 y4 x5 y5 x6 y6 x7 y7 x8 y8 : ℝ)
    (s01 : x0 < x1) (s12 : x1 < x2) (s23 : x2 < x3) (s34 : x3 < x4)
    (s45 : x4 < x5) (s56 : x5 < x6) (s67 : x6 < x7) (s78 : x7 < x8) (x : ℝ) :
    (x ≤ x0 → interpolate [(x0, y0), (x1, y1), (x2, y2), (x3, y3), (x4, y4),
      (x5, y5), (x6, y6), (x7, y7), (x8, y8)] x = y0) ∧
    (x8 ≤ x → interpolate [(x0, y0), (x1, y1), (x2, y2), (x3, y3), (x4, y4),
      (x5, y5), (x6, y6), (x7, y7), (x8, y8)] x = y8) ∧
    (x0 < x → x ≤ x1 → interpolate [(x0, y0), (x1, y1), (x2, y2), (x3, y3),
      (x4, y4), (x5, y5), (x6, y6), (x7, y7), (x8, y8)] x =
      y0 + (y1 - y0) * (x - x0) / (x1 - x0)) ∧
    (x1 < x → x ≤ x2 → interpolate [(x0, y0), (x1, y1), (x2, y2), (x3, y3),
      (x4, y4), (x5, y5), (x6, y6), (x7, y7), (x8, y8)] x =
      y1 + (y2 - y1) * (x - x1) / (x2 - x1)) ∧
    (x2 < x → x ≤ x3 → interpolate [(x0, y0), (x1, y1), (x2, y2), (x3, y3),
      (x4, y4), (x5, y5), (x6, y6), (x7, y7), (x8, y8)] x =
      y2 + (y3 - y2) * (x - x2) / (x3 - x2)) ∧
    (x3 < x → x ≤ x4 → interpolate [(x0, y0), (x1, y1), (x2, y2), (x3, y3),
      (x4, y4), (x5, y5), (x6, y6), (x7, y7), (x8, y8)] x =
      y3 + (y4 - y3) * (x - x3) / (x4 - x3)) ∧
    (x4 < x → x ≤ x5 → interpolate [(x0, y0), (x1, y1), (x2, y2), (x3, y3),
      (x4, y4), (x5, y5), (x6, y6), (x7, y7), (x8, y8)] x =
      y4 + (y5 - y4) * (x - x4) / (x5 - x4)) ∧
    (x5 < x → x ≤ x6 → interpolate [(x0, y0), (x1, y1), (x2, y2), (x3, y3),
      (x4, y4), (x5, y5), (x6, y6), (x7, y7), (x8, y8)] x =
      y5 + (y6 - y5) * (x - x5) / (x6 - x5)) ∧
    (x6 < x → x ≤ x7 → interpolate [(x0, y0), (x1, y1), (x2, y2), (x3, y3),
      (x4, y4), (x5, y5), (x6, y6), (x7, y7), (x8, y8)] x =
      y6 + (y7 - y6) * (x - x6) / (x7 - x6)) ∧
    (x7 < x → x ≤ x8 → interpolate [(x0, y0), (x1, y1), (x2, y2), (x3, y3),
      (x4, y4), (x5, y5), (x6, y6), (x7, y7), (x8, y8)] x =
      y7 + (y8 - y7) * (x - x7) / (x8 - x7)) := by
  refine ⟨?_, ?_, ?_, ?_, ?_, ?_, ?_, ?_, ?_, ?_⟩
  · intro hx
    simp only [interpolate, lastPoint]
    rw [if_pos hx]
  · intro hx
    simp only [interpolate, lastPoint]
    try dsimp only
    rw [if_neg (by intro hc; linarith), if_pos hx]
  · intro h1 h2
    simp only [interpolate, lastPoint, segLoop]
    try dsimp only
    rw [if_neg (not_le.mpr h1), if_neg (by intro hc; linarith),
      if_pos ⟨le_of_lt h1, h2⟩]
    rfl
  · intro h1 h2
    simp only [interpolate, lastPoint, segLoop]
    try dsimp only
    rw [if_neg (by intro hc; linarith), if_neg (by intro hc; linarith),
      if_neg (by rintro ⟨ha, hb⟩; linarith),
      if_pos ⟨le_of_lt h1, h2⟩]
    rfl
  · intro h1 h2
    simp only [interpolate, lastPoint, segLoop]
    try dsimp only
    rw [if_neg (by intro hc; linarith), if_neg (by intro hc; linarith),
      if_neg (by rintro ⟨ha, hb⟩; linarith),
      if_neg (by rintro ⟨ha, hb⟩; linarith),
      if_pos ⟨le_of_lt h1, h2⟩]
    rfl
  · intro h1 h2
    simp only [interpolate, lastPoint, segLoop]
    try dsimp only
    rw [if_neg (by intro hc; linarith), if_neg (by intro hc; linarith),
      if_neg (by rintro ⟨ha, hb⟩; linarith),
      if_neg (by rintro ⟨ha, hb⟩; linarith),
      if_neg (by rintro ⟨ha, hb⟩; linarith),
      if_pos ⟨le_of_lt h1, h2⟩]
    rfl
  · intro h1 h2
    simp only [interpolate, lastPoint, segLoop]
    try dsimp only
    rw [if_neg (by intro hc; linarith), if_neg (by intro hc; linarith),
      if_neg (by rintro ⟨ha, hb⟩; linarith),
      if_neg (by rintro ⟨ha, hb⟩; linarith),
      if_neg (by rintro ⟨ha, hb⟩; linarith),
      if_neg (by rintro ⟨ha, hb⟩; linarith),
      if_pos ⟨le_of_lt h1, h2⟩]
    rfl
  · intro h1 h2
    simp only [interpolate, lastPoint, segLoop]
    try dsimp only
    rw [if_neg (by intro hc; linarith), if_neg (by intro hc; linarith),
      if_neg (by rintro ⟨ha, hb⟩; linarith),
      if_neg (by rintro ⟨ha, hb⟩; linarith),
      if_neg (by rintro ⟨ha, hb⟩; linarith),
      if_neg (by rintro ⟨ha, hb⟩; linarith),
      if_neg (by rintro ⟨ha, hb⟩; linarith),
      if_pos ⟨le_of_lt h1, h2⟩]
    rfl
  · intro h1 h2
    simp only [interpolate, lastPoint, segLoop]
    try dsimp only
    rw [if_neg (by intro hc; linarith), if_neg (by intro hc; linarith),
      if_neg (by rintro ⟨ha, hb⟩; linarith),
      if_neg (by rintro ⟨ha, hb⟩; linarith),
      if_neg (by rintro ⟨ha, hb⟩; linarith),
      if_neg (by rintro ⟨ha, hb⟩; linarith),
      if_neg (by rintro ⟨ha, hb⟩; linarith),
      if_neg (by rintro ⟨ha, hb⟩; linarith),
      if_pos ⟨le_of_lt h1, h2⟩]
    rfl
  · intro h1 h2
    by_cases h8 : x8 ≤ x
    · have hx : x = x8 := le_antisymm h2 h8
      simp only [interpolate, lastPoint]
      try dsimp only
      rw [if_neg (by intro hc; linarith), if_pos h8, hx, mul_div_assoc,
        div_self (sub_ne_zero.mpr (ne_of_gt s78))]
      ring
    · simp only [interpolate, lastPoint, segLoop]
      try dsimp only
      rw [if_neg (by intro hc; linarith), if_neg h8,
        if_neg (by rintro ⟨ha, hb⟩; linarith),
        if_neg (by rintro ⟨ha, hb⟩; linarith),
        if_neg (by rintro ⟨ha, hb⟩; linarith),
        if_neg (by rintro ⟨ha, hb⟩; linarith),
        if_neg (by rintro ⟨ha, hb⟩; linarith),
        if_neg (by rintro ⟨ha, hb⟩; linarith),
        if_neg (by rintro ⟨ha, hb⟩; linarith),
        if_pos ⟨le_of_lt h1, h2⟩]
      rfl

/-- Claim C4: for each of the three influence curves, the interpolation
clamps to the first table value (100 at ratio 0) at or below the first
breakpoint, clamps to the last table value at or beyond the last breakpoint
(never extrapolates), and returns the linear interpolation of the two
bracketing table points between consecutive breakpoints. -/
theorem C4_influence_interpolation :
    (∀ x : ℝ,
      (x ≤ 0 → interpolate interiorRadialPoints x = 100) ∧
      (6 ≤ x → interpolate interiorRadialPoints x = 0) ∧
      (0 < x → x ≤ 0.5 → interpolate interiorRadialPoints x =
        100 + (60 - 100) * (x - 0) / (0.5 - 0)) ∧
      (0.5 < x → x ≤ 1 → interpolate interiorRadialPoints x =
        60 + (25 - 60) * (x - 0.5) / (1 - 0.5)) ∧
      (1 < x → x ≤ 1.5 → interpolate interiorRadialPoints x =
        25 + (5 - 25) * (x - 1) / (1.5 - 1)) ∧
      (1.5 < x → x ≤ 2 → interpolate interiorRadialPoints x =
        5 + (-5 - 5) * (x - 1.5) / (2 - 1.5)) ∧
      (2 < x → x ≤ 3 → interpolate interiorRadialPoints x =
        -5 + (-8 - -5) * (x - 2) / (3 - 2)) ∧
      (3 < x → x ≤ 4 → interpolate interiorRadialPoints x =
        -8 + (-5 - -8) * (x - 3) / (4 - 3)) ∧
      (4 < x → x ≤ 5 → interpolate interiorRadialPoints x =
        -5 + (-2 - -5) * (x - 4) / (5 - 4)) ∧
      (5 < x → x ≤ 6 → interpolate interiorRadialPoints x =
        -2 + (0 - -2) * (x - 5) / (6 - 5))) ∧
    (∀ x : ℝ,
      (x ≤ 0 → interpolate interiorTangentialPoints x = 100) ∧
      (6 ≤ x → interpolate interiorTangentialPoints x = 0) ∧
      (0 < x → x ≤ 0.5 → interpolate interiorTangentialPoints x =
        100 + (80 - 100) * (x - 0) / (0.5 - 0)) ∧
      (0.5 < x → x ≤ 1 → interpolate interiorTangentialPoints x =
        80 + (55 - 80) * (x - 0.5) / (1 - 0.5)) ∧
      (1 < x → x ≤ 1.5 → interpolate interiorTangentialPoints x =
        55 + (35 - 55) * (x - 1) / (1.5 - 1)) ∧
      (1.5 < x → x ≤ 2 → interpolate interiorTangentialPoints x =
        35 + (20 - 35) * (x - 1.5) / (2 - 1.5)) ∧
      (2 < x → x ≤ 3 → interpolate interiorTangentialPoints x =
        20 + (8 - 20) * (x - 2) / (3 - 2)) ∧
      (3 < x → x ≤ 4 → interpolate interiorTangentialPoints x =
        8 + (2 - 8) * (x - 3) / (4 - 3)) ∧
      (4 < x → x ≤ 5 → interpolate interiorTangentialPoints x =
        2 + (0 - 2) * (x - 4) / (5 - 4)) ∧
      (5 < x → x ≤ 6 → interpolate interiorTangentialPoints x =
        0 + (0 - 0) * (x - 5) / (6 - 5))) ∧
    (∀ x : ℝ,
      (x ≤ 0 → interpolate edgeRadialPoints x = 100) ∧
      (6 ≤ x → interpolate edgeRadialPoints x = 0) ∧
      (0 < x → x ≤ 0.5 → interpolate edgeRadialPoints x =
        100 + (50 - 100) * (x - 0) / (0.5 - 0)) ∧
      (0.5 < x → x ≤ 1 → interpolate edgeRadialPoints x =
        50 + (20 - 50) * (x - 0.5) / (1 - 0.5)) ∧
      (1 < x → x ≤ 1.5 → interpolate edgeRadialPoints x =
        20 + (5 - 20) * (x - 1) / (1.5 - 1)) ∧
      (1.5 < x → x ≤ 2 → interpolate edgeRadialPoints x =
        5 + (-5 - 5) * (x - 1.5) / (2 - 1.5)) ∧
      (2 < x → x ≤ 3 → interpolate edgeRadialPoints x =
        -5 + (-10 - -5) * (x - 2) / (3 - 2)) ∧
      (3 < x → x ≤ 4 → interpolate edgeRadialPoints x =
        -10 + (-8 - -10) * (x - 3) / (4 - 3)) ∧
      (4 < x → x ≤ 5 → interpolate edgeRadialPoints x =
        -8 + (-4 - -8) * (x - 4) / (5 - 4)) ∧
      (5 < x → x ≤ 6 → interpolate edgeRadialPoints x =
        -4 + (0 - -4) * (x - 5) / (6 - 5))) := by
  refine ⟨fun x => ?_, fun x => ?_, fun x => ?_⟩
  · have h := interpolate_nine 0 100 0.5 60 1 25 1.5 5 2 (-5) 3 (-8) 4 (-5) 5 (-2) 6 0
      (by norm_num) (by norm_num) (by norm_num) (by norm_num) (by norm_num)
      (by norm_num) (by norm_num) (by norm_num) x
    simp only [interiorRadialPoints]
    exact h
  · have h := interpolate_nine 0 100 0.5 80 1 55 1.5 35 2 20 3 8 4 2 5 0 6 0
      (by norm_num) (by norm_num) (by norm_num) (by norm_num) (by norm_num)
      (by norm_num) (by norm_num) (by norm_num) x
    simp only [interiorTangentialPoints]
    exact h
  · have h := interpolate_nine 0 100 0.5 50 1 20 1.5 5 2 (-5) 3 (-10) 4 (-8) 5 (-4) 6 0
      (by norm_num) (by norm_num) (by norm_num) (by norm_num) (by norm_num)
      (by norm_num) (by norm_num) (by norm_num) x
    simp only [edgeRadialPoints]
    exact h

theorem C4_witness :
    ((0 : ℝ) < 1/4 ∧ (1/4 : ℝ) ≤ 0.5) ∧
    interpolate interiorRadialPoints (1/4) = 100 + (60 - 100) * (1/4 - 0) / (0.5 - 0) ∧
    interpolate interiorTangentialPoints 7 = 0 ∧
    interpolate edgeRadialPoints (-1) = 100 :=
  ⟨⟨by norm_num, by norm_num⟩,
   ((C4_influence_interpolation.1 (1/4)).2.2.1) (by norm_num) (by norm_num),
   ((C4_influence_interpolation.2.1 7).2.1) (by norm_num),
   ((C4_influence_interpolation.2.2 (-1)).1) (by norm_num)⟩

/-- Claim C5: the fatigue factor is 1.0 below 8000 repetitions in both
implementations, is non-increasing across the bucket sequence
{8000, 10000, 30000, 50000, 100000, 200000, 300000, 400000+} (the last
conjunct of the second block treats every repetition count ≥ 400000 as the
final bucket), always lies in [0.75, 1.0], and at the highest bucket lies in
the floor band [0.75, 0.77] (exactly 0.77 for the point-load step table). -/
theorem C5_fatigue_factor :
    (∀ rep : ℝ, rep < 8000 → getK2 rep = 1 ∧ pointLoadK2 rep = 1) ∧
    (getK2 10000 ≤ getK2 8000 ∧ getK2 30000 ≤ getK2 10000 ∧
      getK2 50000 ≤ getK2 30000 ∧ getK2 100000 ≤ getK2 50000 ∧
      getK2 200000 ≤ getK2 100000 ∧ getK2 300000 ≤ getK2 200000 ∧
      (∀ rep : ℝ, 400000 ≤ rep → getK2 rep ≤ getK2 300000)) ∧
    (∀ a b : ℝ, a ≤ b → pointLoadK2 b ≤ pointLoadK2 a) ∧
    (∀ rep : ℝ, (0.75 ≤ getK2 rep ∧ getK2 rep ≤ 1) ∧
      (0.75 ≤ pointLoadK2 rep ∧ pointLoadK2 rep ≤ 1)) ∧
    (∀ rep : ℝ, 400000 ≤ rep →
      (0.75 ≤ getK2 rep ∧ getK2 rep ≤ 0.77) ∧ pointLoadK2 rep = 0.77) := by
  refine ⟨?_, ⟨?_, ?_, ?_, ?_, ?_, ?_, ?_⟩, ?_, ?_, ?_⟩
  · intro rep hrep
    constructor
    · unfold getK2
      rw [if_pos hrep]
      norm_num
    · unfold pointLoadK2
      split_ifs <;> linarith
  · exact getK2_mono_mid (by norm_num) (by norm_num) (by norm_num)
  · exact getK2_mono_mid (by norm_num) (by norm_num) (by norm_num)
  · exact getK2_mono_mid (by norm_num) (by norm_num) (by norm_num)
  · exact getK2_mono_mid (by norm_num) (by norm_num) (by norm_num)
  · exact getK2_mono_mid (by norm_num) (by norm_num) (by norm_num)
  · exact getK2_mono_mid (by norm_num) (by norm_num) (by norm_num)
  · intro rep hrep
    exact le_trans (getK2_tail_le rep hrep) getK2_300000_ge
  · intro a b hab
    exact pointLoadK2_mono hab
  · intro rep
    exact ⟨getK2_mem_range rep, pointLoadK2_mem_range rep⟩
  · intro rep hrep
    refine ⟨⟨(getK2_mem_range rep).1, getK2_tail_le rep hrep⟩, ?_⟩
    unfold pointLoadK2
    rw [if_pos hrep]

theorem C5_witness :
    (getK2 5000 = 1 ∧ pointLoadK2 5000 = 1) ∧
    getK2 500000 ≤ getK2 300000 ∧
    pointLoadK2 50000 ≤ pointLoadK2 30000 ∧
    ((0.75 ≤ getK2 123456 ∧ getK2 123456 ≤ 1) ∧
      (0.75 ≤ pointLoadK2 123456 ∧ pointLoadK2 123456 ≤ 1)) ∧
    ((0.75 ≤ getK2 400000 ∧ getK2 400000 ≤ 0.77) ∧ pointLoadK2 400000 = 0.77) :=
  ⟨C5_fatigue_factor.1 5000 (by norm_num),
   C5_fatigue_factor.2.1.2.2.2.2.2.2 500000 (by norm_num),
   C5_fatigue_factor.2.2.1 30000 50000 (by norm_num),
   C5_fatigue_factor.2.2.2.1 123456,
   C5_fatigue_factor.2.2.2.2 400000 (by norm_num)⟩

end
